import Mathlib

/-!
Verification of the FPFool session orchestrator (src/javascripts/setup.js and
src/javascripts/content.js) against its natural-language specification.

Strings are embedded as `List Char`; the JavaScript string operations used by
the code (`indexOf`, `match` with the fixed pattern, `substring`, `includes`)
are translated below.  The background message handler, the tab pool, the
third-party observer and the page-side behavior strategies are embedded as
pure functions on explicit state.
-/

namespace FPFool

/-- `[a-z]` character class of the pattern in setup.js line 58. -/
def isLowerAZ (c : Char) : Bool := 'a' ≤ c && c ≤ 'z'

/-- `needle` occurs at the very front of `hay` (helper for `jsIncludes`). -/
def listHasPre : List Char → List Char → Bool
  | [], _ => true
  | _ :: _, [] => false
  | a :: as, b :: bs => a == b && listHasPre as bs

/-- JavaScript `hay.includes(needle)` for strings: substring containment. -/
def jsIncludes : List Char → List Char → Bool
  | [], needle => needle.isEmpty
  | c :: t, needle => listHasPre needle (c :: t) || jsIncludes t needle

/-- JavaScript `s.indexOf(c)` for a single character, `none` for -1. -/
def idxOfChar : List Char → Char → Option Nat
  | [], _ => none
  | c :: t, d => if c = d then some 0 else (idxOfChar t d).map (· + 1)

/-- JavaScript `s.indexOf(needle)` for a string needle, `none` for -1. -/
def idxOfSub (needle : List Char) : List Char → Option Nat
  | [] => if listHasPre needle [] then some 0 else none
  | c :: t => if listHasPre needle (c :: t) then some 0 else (idxOfSub needle t).map (· + 1)

/-- Greedy three-letter attempt of the pattern `\.[a-z]{2,3}($|\/)` at the
current position: a dot, three lowercase letters, then end or `/`. -/
def try3 : List Char → Option (List Char)
  | '.' :: c1 :: c2 :: c3 :: rest =>
    if isLowerAZ c1 && isLowerAZ c2 && isLowerAZ c3 then
      match rest with
      | [] => some ['.', c1, c2, c3]
      | '/' :: _ => some ['.', c1, c2, c3, '/']
      | _ => none
    else none
  | _ => none

/-- Backtracking two-letter attempt of the pattern `\.[a-z]{2,3}($|\/)`:
a dot, two lowercase letters, then end or `/`. -/
def try2 : List Char → Option (List Char)
  | '.' :: c1 :: c2 :: rest =>
    if isLowerAZ c1 && isLowerAZ c2 then
      match rest with
      | [] => some ['.', c1, c2]
      | '/' :: _ => some ['.', c1, c2, '/']
      | _ => none
    else none
  | _ => none

/-- One regex-match attempt at the current position: the quantifier `{2,3}` is
greedy, so three letters are tried before two. -/
def extMatchAt (s : List Char) : Option (List Char) :=
  match try3 s with
  | some t => some t
  | none => try2 s

/-- JavaScript `s.match(/\.[a-z]{2,3}($|\/)/)`: leftmost match, returning the
matched token (`urlExtension[0]` in setup.js line 58). -/
def findExt : List Char → Option (List Char)
  | [] => none
  | c :: rest =>
    match extMatchAt (c :: rest) with
    | some t => some t
    | none => findExt rest

/-- JavaScript `s.substring(a, c)`: swaps its arguments when `a > c` and clamps
to the string length. -/
def jsSubstring (s : List Char) (a c : Nat) : List Char :=
  (s.take (max a c)).drop (min a c)

/-- `startInd` of setup.js line 57: `det.initiator.indexOf('.') + 1`
(0 when there is no dot, since `indexOf` yields -1). -/
def startIndOf (s : List Char) : Nat :=
  match idxOfChar s '.' with
  | some i => i + 1
  | none => 0

/-- The base-domain segment `det.initiator.substring(startInd, endInd)` of
setup.js lines 57-60, guarded by `endInd > 0`; `none` when the listener's
guard fails (no extension match or `endInd = 0`). -/
def baseSeg (s : List Char) : Option (List Char) :=
  match findExt s with
  | none => none
  | some tok =>
    match idxOfSub tok s with
    | none => none
    | some endInd =>
      if 0 < endInd then some (jsSubstring s (startIndOf s) endInd) else none

/-- One observed network request, the fields of `det` that the
`chrome.webRequest.onBeforeRequest` listener reads. -/
structure Det where
  type : String
  initiator : Option (List Char)
  url : List Char

/-- State owned by the third-party observer: the `thirdParties` map (an
insertion-ordered association list, as a JavaScript `Map`) and the discovery
`queue`. -/
structure ObsState where
  thirdParties : List (List Char × List (List Char))
  queue : List (List Char)
deriving DecidableEq

/-- Initial observer state: `thirdParties = new Map()`, `queue = []`. -/
def initObs : ObsState := ⟨[], []⟩

/-- JavaScript `Map.get`. -/
def assocGet : List (List Char × List (List Char)) → List Char → Option (List (List Char))
  | [], _ => none
  | (k, v) :: t, k' => if k = k' then some v else assocGet t k'

/-- JavaScript `Map.set`: updates the entry in place if the key is present
(keeping insertion order), otherwise appends. -/
def mapSet : List (List Char × List (List Char)) → List Char → List (List Char) →
    List (List Char × List (List Char))
  | [], k, v => [(k, v)]
  | (k', v') :: t, k, v => if k' = k then (k, v) :: t else (k', v') :: mapSet t k v

/-- setup.js lines 61-66: the new value stored for the initiator, with array
set semantics (`val.includes(det.url) ? val : val.concat([det.url])`). -/
def newEntryVal (old : Option (List (List Char))) (u : List Char) : List (List Char) :=
  match old with
  | some val => if u ∈ val then val else val ++ [u]
  | none => [u]

/-- One iteration of the cross-reference loop of setup.js lines 70-80: a key is
pushed when it does not contain the requesting initiator's base segment, its
url set contains the request url, and it is not yet queued. -/
def crossRefStep (seg u : List Char) (q : List (List Char)) (e : List Char × List (List Char)) :
    List (List Char) :=
  if jsIncludes e.1 seg = false ∧ u ∈ e.2 ∧ e.1 ∉ q then q ++ [e.1] else q

/-- The full cross-reference loop over the (already updated) map, in insertion
order. -/
def crossRef (tp : List (List Char × List (List Char))) (seg u : List Char)
    (q : List (List Char)) : List (List Char) :=
  tp.foldl (crossRefStep seg u) q

/-- The `chrome.webRequest.onBeforeRequest` listener of setup.js lines 52-87:
skips excluded resource types and requests without an initiator, extracts the
initiator's base segment, ignores first-party requests, records the third-party
url under the initiator, then runs the cross-reference loop.  The
`restartLoop` call only re-arms the scheduler timer and touches neither the map
nor the queue, so it is not part of this state. -/
def observe (st : ObsState) (det : Det) : ObsState :=
  if det.type = "stylesheet" ∨ det.type = "image" then st
  else
    match det.initiator with
    | none => st
    | some initiator =>
      match baseSeg initiator with
      | none => st
      | some seg =>
        if jsIncludes det.url seg then st
        else
          { thirdParties := mapSet st.thirdParties initiator
              (newEntryVal (assocGet st.thirdParties initiator) det.url)
            queue := crossRef
              (mapSet st.thirdParties initiator
                (newEntryVal (assocGet st.thirdParties initiator) det.url))
              seg det.url st.queue }

/-- A whole run of the observer from the initial state. -/
def runObserver (calls : List Det) : ObsState := calls.foldl observe initObs

/-- The behavior algorithms of data.json's `availableAlgorithms`, dispatched in
content.js lines 51-61. -/
inductive Algo
  | DEFAULT
  | NAVIGATE
  | SEARCH
deriving DecidableEq

/-- One slot of the `currentTabs` array: tab id, assigned algorithm, `isNew`
flag.  An empty slot is the sentinel `{id: -1}` of setup.js lines 97-99
(its other fields are never read there; reading them yields `undefined`,
which behaves as the defaults below). -/
structure Tab where
  id : Int
  algorithm : Algo
  isNew : Bool
deriving DecidableEq

/-- The empty-slot sentinel `{id: -1}`. -/
def emptyTab : Tab := { id := -1, algorithm := Algo.DEFAULT, isNew := false }

/-- The slot reset of the disconnect path, setup.js lines 128-130:
`currentTabs[currentTabs.findIndex(elem => elem.id == sender.tab.id)] = {id: -1}`.
The first slot whose id matches is replaced by the sentinel; with no match,
`findIndex` yields -1 and the assignment to index -1 leaves every slot of the
array unchanged. -/
def release : List Tab → Int → List Tab
  | [], _ => []
  | t :: rest, h => if t.id = h then emptyTab :: rest else t :: release rest h

/-- Modelled from the spec: `SessionPool.tryAcquire` (§4.3) — the Scheduler's
session-creation code is not part of the repository snapshot (only the pool
array and the release path are in setup.js).  Scans the slots for the first
empty one and installs a new Session with the given algorithm and
`isFresh = true`; with no free slot the pool is unchanged (Full). -/
def tryAcquire : List Tab → Int → Algo → List Tab
  | [], _, _ => []
  | t :: rest, h, a =>
    if t.id = -1 then { id := h, algorithm := a, isNew := true } :: rest
    else t :: tryAcquire rest h a

/-- An acquire or release call on the pool. -/
inductive PoolOp
  | acq (h : Int) (a : Algo)
  | rel (h : Int)

/-- Applies one pool operation. -/
def applyPoolOp (tabs : List Tab) : PoolOp → List Tab
  | PoolOp.acq h a => tryAcquire tabs h a
  | PoolOp.rel h => release tabs h

/-- The pool after an arbitrary interleaving of acquire and release calls,
starting from the fixed-size array of setup.js lines 95-100
(`new Array(maxConnectCount)` filled with `{id: -1}`). -/
def runPool (cap : Nat) (ops : List PoolOp) : List Tab :=
  ops.foldl applyPoolOp (List.replicate cap emptyTab)

/-- Number of non-empty slots (id different from the -1 sentinel). -/
def countNonEmpty (tabs : List Tab) : Nat :=
  tabs.countP (fun t => decide (t.id ≠ -1))

/-- JavaScript `currentTabs.find(tab => tab.id == sender.tab.id)` of setup.js
line 177. -/
def findTab : List Tab → Int → Option Tab
  | [], _ => none
  | t :: rest, h => if t.id = h then some t else findTab rest h

/-- The mutation `senderTab.isNew = false` of setup.js line 182: `find`
returns a reference to the first matching slot, so exactly that slot is
updated. -/
def setFirstNotNew : List Tab → Int → List Tab
  | [], _ => []
  | t :: rest, h =>
    if t.id = h then { t with isNew := false } :: rest else t :: setFirstNotNew rest h

/-- The reply built by the `isExec` case, setup.js lines 176-184:
`isExec` is always assigned; `algo` and `disconnect` only when the sender's
tab was found. -/
structure IsExecResp where
  isExec : Bool
  algo : Option Algo
  disconnect : Option Bool
deriving DecidableEq

/-- The `isExec` case of the message listener, setup.js lines 176-184:
looks the sender's tab up, answers `isExec = (found && isNew)`,
`disconnect = !isNew`, and clears the `isNew` flag of the found slot. -/
def handleIsExec (tabs : List Tab) (h : Int) : IsExecResp × List Tab :=
  match findTab tabs h with
  | none => ({ isExec := false, algo := none, disconnect := none }, tabs)
  | some t =>
    ({ isExec := t.isNew, algo := some t.algorithm, disconnect := some (!t.isNew) },
     setFirstNotNew tabs h)

/-- Pool state after `n` further `isExec` handshakes from the same sender. -/
def handshakeState (tabs : List Tab) (h : Int) : Nat → List Tab
  | 0 => tabs
  | n + 1 => (handleIsExec (handshakeState tabs h n) h).2

/-- The statistics counters of setup.js (declared in the extension's global
script; read and written by the handlers embedded here). -/
structure Stats where
  clickedLinksCount : Nat
  keywordSearchCount : Nat
  visitedSitesCount : Nat
  todayConnectionCount : Nat
deriving DecidableEq

/-- The background state touched by the message listener: the pool, the
counters and the `searchTerms` object store of the IndexedDB database
(url key, list of terms). -/
structure BgState where
  currentTabs : List Tab
  stats : Stats
  searchTerms : List (List Char × List (List Char))
deriving DecidableEq

/-- The message types handled by the `chrome.runtime.onMessage` listener of
setup.js lines 123-198; `unknown` stands for every unrecognized type, which
falls into the `default` arm. -/
inductive Msg
  | disconnect
  | getSearchTerm (url : List Char)
  | getStatistics
  | incClickedLinksCount
  | incKeywordSearchCount
  | incVisitedSitesCount
  | isExec
  | resetStatistics
  | unknown
deriving DecidableEq

/-- The structured reply of the listener; a field that the handled case never
assigns stays `none` (absent on the JavaScript object). -/
structure Response where
  searchTerm : Option (List Char)
  clickedLinksCount : Option Nat
  keywordSearchCount : Option Nat
  visitedSitesCount : Option Nat
  isExec : Option Bool
  algo : Option Algo
  disconnect : Option Bool
deriving DecidableEq

/-- The empty reply object `{}` of setup.js line 124. -/
def emptyResponse : Response :=
  { searchTerm := none
    clickedLinksCount := none
    keywordSearchCount := none
    visitedSitesCount := none
    isExec := none
    algo := none
    disconnect := none }

/-- Asynchronous work started but not completed inside the listener:
the `chrome.tabs.remove` callback of the disconnect case (which performs the
slot reset) and the IndexedDB `get` started by `getTheData()`. -/
inductive Deferred
  | removeTab (h : Int)
  | dbLookup (url : List Char)
deriving DecidableEq

/-- What one run of the message listener produces: the reply passed to
`sendResponse` (`none` when no response is sent), whether the listener threw,
the state at the moment the listener returns, the key/value pairs written to
`chrome.storage.sync`, and the asynchronous callbacks still pending. -/
structure HandlerOut where
  response : Option Response
  error : Bool
  state : BgState
  persisted : List (String × Nat)
  deferred : List Deferred
deriving DecidableEq

/-- The value the IndexedDB lookup of setup.js lines 142-146 resolves to:
`getRequest.result != undefined ? getRequest.result.terms[0] : ' '`
(`none` models `undefined`, arising from an entry with an empty terms array). -/
def dbLookupValue (store : List (List Char × List (List Char))) (url : List Char) :
    Option (List Char) :=
  match assocGet store url with
  | some terms => terms.head?
  | none => some [' ']

/-- The `chrome.runtime.onMessage` listener of setup.js lines 123-198,
translated case by case.  In the `disconnect` case the slot reset lives inside
the `chrome.tabs.remove` callback, hence it appears under `deferred` and the
immediate state keeps the slot.  In the `getSearchTerm` case the listener
starts the asynchronous lookup (`getTheData()`) and then evaluates
`response.searchTerm = value`, where `value` is a variable local to
`getTheData`; under the file's `'use strict'` this read of an undeclared name
throws a ReferenceError, so `sendResponse` is never reached (`error := true`,
`response := none`). -/
def handleMessage (st : BgState) (senderId : Int) : Msg → HandlerOut
  | Msg.disconnect =>
    { response := some emptyResponse
      error := false
      state := st
      persisted := []
      deferred := [Deferred.removeTab senderId] }
  | Msg.getSearchTerm url =>
    { response := none
      error := true
      state := st
      persisted := []
      deferred := [Deferred.dbLookup url] }
  | Msg.getStatistics =>
    { response := some { emptyResponse with
        clickedLinksCount := some st.stats.clickedLinksCount
        keywordSearchCount := some st.stats.keywordSearchCount
        visitedSitesCount := some st.stats.visitedSitesCount }
      error := false
      state := st
      persisted := []
      deferred := [] }
  | Msg.incClickedLinksCount =>
    { response := some emptyResponse
      error := false
      state := { st with stats :=
        { st.stats with clickedLinksCount := st.stats.clickedLinksCount + 1 } }
      persisted := []
      deferred := [] }
  | Msg.incKeywordSearchCount =>
    { response := some emptyResponse
      error := false
      state := { st with stats :=
        { st.stats with keywordSearchCount := st.stats.keywordSearchCount + 1 } }
      persisted := []
      deferred := [] }
  | Msg.incVisitedSitesCount =>
    { response := some emptyResponse
      error := false
      state := { st with stats :=
        { st.stats with visitedSitesCount := st.stats.visitedSitesCount + 1 } }
      persisted := []
      deferred := [] }
  | Msg.isExec =>
    { response := some { emptyResponse with
        isExec := some (handleIsExec st.currentTabs senderId).1.isExec
        algo := (handleIsExec st.currentTabs senderId).1.algo
        disconnect := (handleIsExec st.currentTabs senderId).1.disconnect }
      error := false
      state := { st with currentTabs := (handleIsExec st.currentTabs senderId).2 }
      persisted := []
      deferred := [] }
  | Msg.resetStatistics =>
    { response := some emptyResponse
      error := false
      state := { st with stats :=
        { st.stats with
          clickedLinksCount := 0
          keywordSearchCount := 0
          visitedSitesCount := 0 } }
      persisted := [("visitedSitesCount", 0), ("clickedLinksCount", 0),
        ("keywordSearchCount", 0)]
      deferred := [] }
  | Msg.unknown =>
    { response := none
      error := false
      state := st
      persisted := []
      deferred := [] }

/-- Runs one pending asynchronous callback: the `chrome.tabs.remove` callback
performs the slot reset of setup.js lines 128-130; the database lookup only
resolves a value and touches no background state. -/
def applyDeferred (st : BgState) : Deferred → BgState
  | Deferred.removeTab h => { st with currentTabs := release st.currentTabs h }
  | Deferred.dbLookup _ => st

/-- The `chrome.windows.onRemoved` persistence of setup.js lines 257-271:
when the closed-window event leaves exactly one window and it is the
extension's own, all four counters are written to storage; otherwise nothing
is written. -/
def shutdownPersist (windows : List Int) (wid : Int) (s : Stats) : List (String × Nat) :=
  match windows with
  | [w] =>
    if wid = w then
      [("clickedLinksCount", s.clickedLinksCount),
       ("keywordSearchCount", s.keywordSearchCount),
       ("visitedSitesCount", s.visitedSitesCount),
       ("todayConnectionCount", s.todayConnectionCount)]
    else []
  | _ => []

/-- The status rows written by content.js's `updateStatus`. -/
inductive Outcome
  | OPEN
  | NAVIGATE
  | SEARCH
  | SEARCHFAIL
  | REMOVE
deriving DecidableEq

/-- A JavaScript exception aborting a strategy run. -/
inductive JsError
  | typeError
deriving DecidableEq

/-- The page data the content-script strategies consume: the anchor elements
collected by `$('a')`, the existence of `:input[type=search]` and
`:input[type=text]` fields, and whether the enclosing form's `action` or
`role` attribute contains "search" (the `aS`/`rS` tests of content.js
lines 125-126, with `undefined` attributes already folded to `false`). -/
structure PageCtx where
  anchorCount : Nat
  hasSearchInput : Bool
  hasTextInput : Bool
  formActionHasSearch : Bool
  formRoleHasSearch : Bool
deriving DecidableEq

/-- The idle strategy (`DEFAULT`, content.js line 53): schedules `disconnect`,
whose reply callback reports the REMOVE status. -/
def idleRun : Except JsError (List Outcome) := Except.ok [Outcome.REMOVE]

/-- `navigatePage` of content.js lines 91-106: with no anchor elements,
`links[Math.floor(Math.random() * 0)]` is `undefined` and the scheduled
callback throws a TypeError at `randomVisit.href` before any status is
reported; otherwise the randomly picked link is activated and exactly one
NAVIGATE status is reported. -/
def navigateRun (ctx : PageCtx) : Except JsError (List Outcome) :=
  if ctx.anchorCount = 0 then Except.error JsError.typeError
  else Except.ok [Outcome.NAVIGATE]

/-- The submission guard of content.js line 129:
`inputField.length > 0 && (aS || rS) && resp.searchTerm != ' '`. -/
def searchFormOk (ctx : PageCtx) (term : List Char) : Bool :=
  (ctx.hasSearchInput || ctx.hasTextInput) &&
    (ctx.formActionHasSearch || ctx.formRoleHasSearch) && !(term == [' '])

/-- `searchPage` of content.js lines 114-149: when a search form and a term
are available the form is filled and submitted, reporting one SEARCH status;
otherwise one SEARCHFAIL status is reported and `disconnect` is scheduled,
whose reply callback reports REMOVE. -/
def searchRun (ctx : PageCtx) (term : List Char) : Except JsError (List Outcome) :=
  if searchFormOk ctx term then Except.ok [Outcome.SEARCH]
  else Except.ok [Outcome.SEARCHFAIL, Outcome.REMOVE]

/-- The algorithm dispatch of content.js lines 51-61. -/
def dispatchRun (ctx : PageCtx) (a : Algo) (term : List Char) :
    Except JsError (List Outcome) :=
  match a with
  | Algo.DEFAULT => idleRun
  | Algo.NAVIGATE => navigateRun ctx
  | Algo.SEARCH => searchRun ctx term

/-- The terminal outcomes named by the specification
(NAVIGATE, SEARCH, SEARCHFAIL, REMOVE); OPEN is the initial status row. -/
def isTerminal : Outcome → Bool
  | Outcome.OPEN => false
  | _ => true

/-- The claimed property of a strategy run: it completes without throwing and
reports exactly one terminal outcome. -/
def reportsExactlyOne (r : Except JsError (List Outcome)) : Prop :=
  ∃ l, r = Except.ok l ∧ (l.filter isTerminal).length = 1

/-- The third-party invariant: every url recorded under an origin was checked,
at insertion time, not to contain the origin's base segment. -/
def TPInv (tp : List (List Char × List (List Char))) : Prop :=
  ∀ o urls, (o, urls) ∈ tp → ∀ u ∈ urls,
    ∃ b, baseSeg o = some b ∧ jsIncludes u b = false

/-! ## Lemmas about the string embedding -/

theorem listHasPre_self_append (l r : List Char) : listHasPre l (l ++ r) = true := by
  induction l with
  | nil => rfl
  | cons a as ih => simp [listHasPre, ih]

theorem jsIncludes_self_append (seg post : List Char) :
    jsIncludes (seg ++ post) seg = true := by
  cases seg with
  | nil => cases post <;> simp [jsIncludes, List.isEmpty, listHasPre]
  | cons s ss =>
    have h := listHasPre_self_append (s :: ss) post
    simp only [List.cons_append] at h
    simp [jsIncludes, h]

theorem jsIncludes_parts (pre seg post : List Char) :
    jsIncludes (pre ++ (seg ++ post)) seg = true := by
  induction pre with
  | nil => simpa using jsIncludes_self_append seg post
  | cons c pr ih => simp [jsIncludes, ih]

theorem split3 (s : List Char) (a c : Nat) :
    s = (s.take (max a c)).take (min a c) ++ (jsSubstring s a c ++ s.drop (max a c)) := by
  rw [jsSubstring, ← List.append_assoc, List.take_append_drop, List.take_append_drop]

theorem jsIncludes_jsSubstring (s : List Char) (a c : Nat) :
    jsIncludes s (jsSubstring s a c) = true := by
  have h := jsIncludes_parts ((s.take (max a c)).take (min a c)) (jsSubstring s a c)
    (s.drop (max a c))
  rw [← split3 s a c] at h
  exact h

theorem baseSeg_includes {s b : List Char} (h : baseSeg s = some b) :
    jsIncludes s b = true := by
  unfold baseSeg at h
  split at h
  · cases h
  · split at h
    · cases h
    · split at h
      · cases h
        exact jsIncludes_jsSubstring ..
      · cases h

/-! ## Lemmas about the third-party map -/

theorem assocGet_mem {m : List (List Char × List (List Char))} {k : List Char}
    {v : List (List Char)} (h : assocGet m k = some v) : (k, v) ∈ m := by
  induction m with
  | nil => cases h
  | cons e t ih =>
    obtain ⟨k', v'⟩ := e
    by_cases hk : k' = k
    · rw [assocGet, if_pos hk] at h
      cases h
      subst hk
      exact List.mem_cons_self _ _
    · rw [assocGet, if_neg hk] at h
      exact List.mem_cons_of_mem _ (ih h)

theorem mapSet_mem {m : List (List Char × List (List Char))} {k o : List Char}
    {v urls : List (List Char)} (h : (o, urls) ∈ mapSet m k v) :
    (o, urls) ∈ m ∨ (o = k ∧ urls = v) := by
  induction m with
  | nil =>
    right
    simpa [mapSet] using h
  | cons e t ih =>
    obtain ⟨k', v'⟩ := e
    by_cases hk : k' = k
    · rw [mapSet, if_pos hk] at h
      rcases List.mem_cons.mp h with h1 | h1
      · right
        simpa using h1
      · exact Or.inl (List.mem_cons_of_mem _ h1)
    · rw [mapSet, if_neg hk] at h
      rcases List.mem_cons.mp h with h1 | h1
      · exact Or.inl (h1 ▸ List.mem_cons_self _ _)
      · rcases ih h1 with h2 | h2
        · exact Or.inl (List.mem_cons_of_mem _ h2)
        · exact Or.inr h2

theorem newEntryVal_mem {old : Option (List (List Char))} {u x : List Char}
    (h : x ∈ newEntryVal old u) :
    (∃ val, old = some val ∧ x ∈ val) ∨ x = u := by
  cases old with
  | none =>
    right
    simpa [newEntryVal] using h
  | some val =>
    rw [newEntryVal] at h
    by_cases hm : u ∈ val
    · rw [if_pos hm] at h
      exact Or.inl ⟨val, rfl, h⟩
    · rw [if_neg hm] at h
      rcases List.mem_append.mp h with h1 | h1
      · exact Or.inl ⟨val, rfl, h1⟩
      · right
        simpa using h1

/-! ## The first-party exclusion invariant (claim C7) -/

theorem observe_TPInv {st : ObsState} (det : Det) (h : TPInv st.thirdParties) :
    TPInv (observe st det).thirdParties := by
  unfold observe
  split
  · exact h
  · split
    · exact h
    · rename_i initiator
      split
      · exact h
      · rename_i seg hseg
        split
        · exact h
        · rename_i hurl
          intro o urls hmem u hu
          rcases mapSet_mem hmem with hin | ⟨ho, hurls⟩
          · exact h o urls hin u hu
          · subst ho
            subst hurls
            rcases newEntryVal_mem hu with ⟨val, hval, hx⟩ | hx
            · exact h o val (assocGet_mem hval) u hx
            · subst hx
              refine ⟨seg, hseg, ?_⟩
              simpa using hurl

theorem foldl_observe_TPInv (calls : List Det) (st : ObsState)
    (h : TPInv st.thirdParties) : TPInv ((calls.foldl observe st).thirdParties) := by
  induction calls generalizing st with
  | nil => exact h
  | cons d rest ih => exact ih _ (observe_TPInv d h)

/-- C7: for all sequences of observe calls, the ThirdPartyIndex never records a
pair in which the requesting origin and the recorded endpoint URL share the
same base domain: every recorded url fails the `includes` test against the
origin's base segment, and in particular the url's own base segment (which is
always a substring of the url) cannot equal the origin's. -/
theorem c7_no_first_party (calls : List Det) (o u b : List Char)
    (urls : List (List Char))
    (hmem : (o, urls) ∈ (runObserver calls).thirdParties) (hu : u ∈ urls)
    (hb : baseSeg o = some b) :
    jsIncludes u b = false ∧ baseSeg u ≠ some b := by
  have hinv : TPInv (runObserver calls).thirdParties := by
    apply foldl_observe_TPInv
    intro o urls hmem
    cases hmem
  obtain ⟨b', hb', hfalse⟩ := hinv o urls hmem u hu
  rw [hb] at hb'
  injection hb' with hbb
  subst hbb
  refine ⟨hfalse, fun hbu => ?_⟩
  have htrue := baseSeg_includes hbu
  rw [hfalse] at htrue
  cases htrue

/-- Witness for C7 at a concrete run: one request from `www.sitea.com` to the
tracker `t.example`. -/
theorem c7_no_first_party_witness :
    jsIncludes "https://t.example/ad.js".toList "sitea".toList = false ∧
      baseSeg "https://t.example/ad.js".toList ≠ some "sitea".toList :=
  c7_no_first_party
    [⟨"xmlhttprequest", some "https://www.sitea.com".toList,
      "https://t.example/ad.js".toList⟩]
    "https://www.sitea.com".toList "https://t.example/ad.js".toList
    "sitea".toList ["https://t.example/ad.js".toList]
    (by decide) (by decide) (by decide)

/-! ## Duplicate-freedom of the discovery queue (claim C8) -/

theorem crossRefStep_nodup {seg u : List Char} {q : List (List Char)}
    (e : List Char × List (List Char)) (h : q.Nodup) : (crossRefStep seg u q e).Nodup := by
  unfold crossRefStep
  split
  · rename_i hc
    simp [List.nodup_append, h, hc.2.2]
  · exact h

theorem crossRef_nodup (tp : List (List Char × List (List Char))) (seg u : List Char)
    (q : List (List Char)) (h : q.Nodup) : (crossRef tp seg u q).Nodup := by
  induction tp generalizing q with
  | nil => exact h
  | cons e t ih => exact ih _ (crossRefStep_nodup e h)

theorem observe_queue_nodup {st : ObsState} (det : Det) (h : st.queue.Nodup) :
    (observe st det).queue.Nodup := by
  unfold observe
  split
  · exact h
  · split
    · exact h
    · split
      · exact h
      · split
        · exact h
        · exact crossRef_nodup _ _ _ _ h

theorem foldl_observe_queue_nodup (calls : List Det) (st : ObsState)
    (h : st.queue.Nodup) : (calls.foldl observe st).queue.Nodup := by
  induction calls generalizing st with
  | nil => exact h
  | cons d rest ih => exact ih _ (observe_queue_nodup d h)

/-- C8: at every reachable state the DiscoveryQueue contains each origin at
most once — an origin is pushed only after the `!queue.includes(key)` check,
so no sequence of observe calls produces a duplicate entry. -/
theorem c8_discovery_queue_nodup (calls : List Det) :
    (runObserver calls).queue.Nodup :=
  foldl_observe_queue_nodup calls initObs List.nodup_nil

/-! ## Cross-referencing discovery (claim C1) -/

/-- Counterexample to C1 as stated: origins `www.sitea.com` and `www.siteb.com`
have different base domains and both load the endpoint `t.example`; after the
second request the queue does NOT satisfy "contains B and not A" — the code
enqueues the previously indexed origin A, skipping the requesting origin B
(whose key contains its own base segment). -/
theorem c1_counterexample :
    ¬ ("https://www.siteb.com".toList ∈ (runObserver
        [⟨"xmlhttprequest", some "https://www.sitea.com".toList,
          "https://t.example/ad.js".toList⟩,
         ⟨"xmlhttprequest", some "https://www.siteb.com".toList,
          "https://t.example/ad.js".toList⟩]).queue
      ∧ "https://www.sitea.com".toList ∉ (runObserver
        [⟨"xmlhttprequest", some "https://www.sitea.com".toList,
          "https://t.example/ad.js".toList⟩,
         ⟨"xmlhttprequest", some "https://www.siteb.com".toList,
          "https://t.example/ad.js".toList⟩]).queue) := by
  decide

/-- C1 amended: after origin A loads third-party endpoint t and then origin B
loads the same t (A and B distinct, B's base segment not contained in A, t
third-party to both), the DiscoveryQueue contains A — the origin already in
the index — and does not contain the requesting origin B. -/
theorem c1_cross_discovery (ty : String) (A B t a b : List Char)
    (hty1 : ¬ ty = "stylesheet") (hty2 : ¬ ty = "image")
    (hA : baseSeg A = some a) (hB : baseSeg B = some b)
    (hta : jsIncludes t a = false) (htb : jsIncludes t b = false)
    (hAb : jsIncludes A b = false) (hAB : ¬ A = B) :
    (observe (observe initObs ⟨ty, some A, t⟩) ⟨ty, some B, t⟩).queue = [A] ∧
    A ∈ (observe (observe initObs ⟨ty, some A, t⟩) ⟨ty, some B, t⟩).queue ∧
    B ∉ (observe (observe initObs ⟨ty, some A, t⟩) ⟨ty, some B, t⟩).queue := by
  have hAa : jsIncludes A a = true := baseSeg_includes hA
  have hBb : jsIncludes B b = true := baseSeg_includes hB
  have h1 : observe initObs ⟨ty, some A, t⟩ = ⟨[(A, [t])], []⟩ := by
    simp [observe, initObs, hty1, hty2, hA, hta, mapSet, assocGet, newEntryVal,
      crossRef, crossRefStep, hAa]
  have h2 : observe ⟨[(A, [t])], []⟩ ⟨ty, some B, t⟩ = ⟨[(A, [t]), (B, [t])], [A]⟩ := by
    simp [observe, hty1, hty2, hB, htb, mapSet, assocGet, newEntryVal,
      crossRef, crossRefStep, hAb, hBb, hAB]
  rw [h1, h2]
  refine ⟨rfl, List.mem_singleton.mpr rfl, ?_⟩
  intro hmem
  exact hAB (List.mem_singleton.mp hmem).symm

/-- Witness for the amended C1 at the concrete scenario of the
counterexample. -/
theorem c1_cross_discovery_witness :
    (observe (observe initObs
        ⟨"xmlhttprequest", some "https://www.sitea.com".toList,
          "https://t.example/ad.js".toList⟩)
        ⟨"xmlhttprequest", some "https://www.siteb.com".toList,
          "https://t.example/ad.js".toList⟩).queue = ["https://www.sitea.com".toList] ∧
    "https://www.sitea.com".toList ∈ (observe (observe initObs
        ⟨"xmlhttprequest", some "https://www.sitea.com".toList,
          "https://t.example/ad.js".toList⟩)
        ⟨"xmlhttprequest", some "https://www.siteb.com".toList,
          "https://t.example/ad.js".toList⟩).queue ∧
    "https://www.siteb.com".toList ∉ (observe (observe initObs
        ⟨"xmlhttprequest", some "https://www.sitea.com".toList,
          "https://t.example/ad.js".toList⟩)
        ⟨"xmlhttprequest", some "https://www.siteb.com".toList,
          "https://t.example/ad.js".toList⟩).queue :=
  c1_cross_discovery "xmlhttprequest"
    "https://www.sitea.com".toList "https://www.siteb.com".toList
    "https://t.example/ad.js".toList "sitea".toList "siteb".toList
    (by decide) (by decide) (by decide) (by decide)
    (by decide) (by decide) (by decide) (by decide)

/-! ## Pool capacity (claim C3) -/

theorem release_length (tabs : List Tab) (h : Int) :
    (release tabs h).length = tabs.length := by
  induction tabs with
  | nil => rfl
  | cons t rest ih =>
    rw [release]
    split
    · simp
    · simp [ih]

theorem tryAcquire_length (tabs : List Tab) (h : Int) (a : Algo) :
    (tryAcquire tabs h a).length = tabs.length := by
  induction tabs with
  | nil => rfl
  | cons t rest ih =>
    rw [tryAcquire]
    split
    · simp
    · simp [ih]

theorem applyPoolOp_length (tabs : List Tab) (op : PoolOp) :
    (applyPoolOp tabs op).length = tabs.length := by
  cases op
  · exact tryAcquire_length ..
  · exact release_length ..

theorem foldl_applyPoolOp_length (ops : List PoolOp) (tabs : List Tab) :
    (ops.foldl applyPoolOp tabs).length = tabs.length := by
  induction ops generalizing tabs with
  | nil => rfl
  | cons op rest ih => rw [List.foldl_cons, ih, applyPoolOp_length]

/-- C3: under every interleaving of acquire and release calls the pool holds at
most `cap` non-empty slots, where `cap` is the startup capacity, and the slot
sequence never changes length: acquire and release both replace a slot in
place, so the array created at startup keeps its size. -/
theorem c3_pool_capacity (cap : Nat) (ops : List PoolOp) :
    (runPool cap ops).length = cap ∧ countNonEmpty (runPool cap ops) ≤ cap := by
  have hlen : (runPool cap ops).length = cap := by
    rw [runPool, foldl_applyPoolOp_length, List.length_replicate]
  refine ⟨hlen, ?_⟩
  calc countNonEmpty (runPool cap ops) ≤ (runPool cap ops).length :=
        List.countP_le_length _
    _ = cap := hlen

/-! ## Idempotence of release (claim C6) -/

theorem release_of_forall_ne {tabs : List Tab} {h : Int}
    (hnm : ∀ t ∈ tabs, ¬ t.id = h) : release tabs h = tabs := by
  induction tabs with
  | nil => rfl
  | cons t rest ih =>
    rw [release, if_neg (hnm t (List.mem_cons_self ..)),
      ih fun x hx => hnm x (List.mem_cons_of_mem _ hx)]

/-- Counterexample to C6 as stated: with two slots holding the same handle 5,
releasing twice empties both slots while releasing once empties only the
first, so the observable states differ. -/
theorem c6_counterexample :
    release (release [{ id := 5, algorithm := Algo.DEFAULT, isNew := true },
        { id := 5, algorithm := Algo.DEFAULT, isNew := true }] 5) 5
      ≠ release [{ id := 5, algorithm := Algo.DEFAULT, isNew := true },
        { id := 5, algorithm := Algo.DEFAULT, isNew := true }] 5 := by
  decide

/-- C6 amended: on every pool state in which at most one slot holds handle
`h` (as in all states arising from platform-unique tab handles), releasing
twice equals releasing once; and releasing a handle held by no slot is a
no-op (`findIndex` yields -1 and no slot changes), not an error. -/
theorem c6_release_idempotent (tabs : List Tab) (h : Int)
    (huniq : tabs.countP (fun t => decide (t.id = h)) ≤ 1) :
    release (release tabs h) h = release tabs h ∧
    ((∀ t ∈ tabs, ¬ t.id = h) → release tabs h = tabs) := by
  constructor
  · induction tabs with
    | nil => rfl
    | cons t rest ih =>
      by_cases ht : t.id = h
      · rw [release, if_pos ht]
        by_cases hh : (-1 : Int) = h
        · rw [release, if_pos (show emptyTab.id = h from hh)]
        · rw [release, if_neg (show ¬ emptyTab.id = h from hh)]
          rw [List.countP_cons] at huniq
          simp [ht] at huniq
          rw [release_of_forall_ne huniq]
      · rw [release, if_neg ht, release, if_neg ht]
        have hrest : rest.countP (fun t => decide (t.id = h)) ≤ 1 := by
          rw [List.countP_cons] at huniq
          simpa [ht] using huniq
        rw [ih hrest]
  · exact release_of_forall_ne

/-- Witness for the amended C6: a pool with one distinct session and one empty
slot, released twice with an unmatched handle. -/
theorem c6_release_idempotent_witness :
    release (release [{ id := 5, algorithm := Algo.DEFAULT, isNew := true }, emptyTab] 7) 7
      = release [{ id := 5, algorithm := Algo.DEFAULT, isNew := true }, emptyTab] 7 ∧
    release [{ id := 5, algorithm := Algo.DEFAULT, isNew := true }, emptyTab] 7
      = [{ id := 5, algorithm := Algo.DEFAULT, isNew := true }, emptyTab] :=
  ⟨(c6_release_idempotent
      [{ id := 5, algorithm := Algo.DEFAULT, isNew := true }, emptyTab] 7 (by decide)).1,
   (c6_release_idempotent
      [{ id := 5, algorithm := Algo.DEFAULT, isNew := true }, emptyTab] 7 (by decide)).2
     (by decide)⟩

/-! ## The handshake flag (claim C2) -/

theorem findTab_setFirstNotNew {tabs : List Tab} {h : Int} {t : Tab}
    (hf : findTab tabs h = some t) :
    findTab (setFirstNotNew tabs h) h = some { t with isNew := false } := by
  induction tabs with
  | nil => cases hf
  | cons x rest ih =>
    by_cases hx : x.id = h
    · rw [findTab, if_pos hx] at hf
      cases hf
      rw [setFirstNotNew, if_pos hx, findTab, if_pos hx]
    · rw [findTab, if_neg hx] at hf
      rw [setFirstNotNew, if_neg hx, findTab, if_neg hx]
      exact ih hf

theorem setFirstNotNew_idem (tabs : List Tab) (h : Int) :
    setFirstNotNew (setFirstNotNew tabs h) h = setFirstNotNew tabs h := by
  induction tabs with
  | nil => rfl
  | cons x rest ih =>
    by_cases hx : x.id = h
    · rw [setFirstNotNew, if_pos hx, setFirstNotNew, if_pos hx]
    · rw [setFirstNotNew, if_neg hx, setFirstNotNew, if_neg hx, ih]

theorem handshakeState_succ {tabs : List Tab} {h : Int} {t : Tab}
    (hf : findTab tabs h = some t) (n : Nat) :
    handshakeState tabs h (n + 1) = setFirstNotNew tabs h := by
  induction n with
  | zero => simp [handshakeState, handleIsExec, hf]
  | succ n ih =>
    rw [handshakeState, ih]
    simp [handleIsExec, findTab_setFirstNotNew hf, setFirstNotNew_idem]

/-- C2: for a session installed in the pool and still fresh, the first
handshake answers `isExec = true` and clears the fresh flag; every later
handshake for the same session (any number `n` of handshakes later) answers
`isExec = false` with `disconnect = true`. -/
theorem c2_handshake_once (tabs : List Tab) (h : Int) (t : Tab) (n : Nat)
    (hfind : findTab tabs h = some t) (hfresh : t.isNew = true) :
    (handleIsExec tabs h).1.isExec = true ∧
    findTab (handleIsExec tabs h).2 h = some { t with isNew := false } ∧
    (handleIsExec (handshakeState tabs h (n + 1)) h).1.isExec = false ∧
    (handleIsExec (handshakeState tabs h (n + 1)) h).1.disconnect = some true := by
  have hf2 := findTab_setFirstNotNew hfind
  refine ⟨?_, ?_, ?_, ?_⟩
  · simp [handleIsExec, hfind, hfresh]
  · simpa [handleIsExec, hfind] using hf2
  · rw [handshakeState_succ hfind]
    simp [handleIsExec, hf2]
  · rw [handshakeState_succ hfind]
    simp [handleIsExec, hf2]

/-- Witness for C2: a one-slot pool with a fresh session, first and second
handshakes. -/
theorem c2_handshake_once_witness :
    (handleIsExec [{ id := 5, algorithm := Algo.SEARCH, isNew := true }] 5).1.isExec = true ∧
    findTab (handleIsExec [{ id := 5, algorithm := Algo.SEARCH, isNew := true }] 5).2 5
      = some { id := 5, algorithm := Algo.SEARCH, isNew := false } ∧
    (handleIsExec (handshakeState [{ id := 5, algorithm := Algo.SEARCH, isNew := true }] 5 1)
        5).1.isExec = false ∧
    (handleIsExec (handshakeState [{ id := 5, algorithm := Algo.SEARCH, isNew := true }] 5 1)
        5).1.disconnect = some true :=
  c2_handshake_once [{ id := 5, algorithm := Algo.SEARCH, isNew := true }] 5
    { id := 5, algorithm := Algo.SEARCH, isNew := true } 0 (by decide) rfl

/-! ## Timing of the disconnect release (claim C5) -/

/-- Counterexample to C5 as stated: with a one-slot pool holding session 5,
the state at the moment the disconnect handler returns still holds the slot —
it differs from the released pool, because the slot reset lives inside the
asynchronous `chrome.tabs.remove` callback. -/
theorem c5_counterexample :
    (handleMessage
        { currentTabs := [{ id := 5, algorithm := Algo.DEFAULT, isNew := true }]
          stats := ⟨0, 0, 0, 0⟩
          searchTerms := [] } 5 Msg.disconnect).state.currentTabs
      ≠ release [{ id := 5, algorithm := Algo.DEFAULT, isNew := true }] 5 := by
  decide

/-- C5 amended: the disconnect handler does NOT release the slot before it
returns — it leaves the pool unchanged and defers exactly one tab-removal
callback, and it is that callback that performs the release; the slot stays
occupied (and thus never reacquirable as empty) until the callback runs. -/
theorem c5_async_release (st : BgState) (sid : Int) :
    (handleMessage st sid Msg.disconnect).state.currentTabs = st.currentTabs ∧
    (handleMessage st sid Msg.disconnect).deferred = [Deferred.removeTab sid] ∧
    (applyDeferred (handleMessage st sid Msg.disconnect).state
        (Deferred.removeTab sid)).currentTabs = release st.currentTabs sid :=
  ⟨rfl, rfl, rfl⟩

/-! ## Frame effect of the statistics handlers (claim C10) -/

/-- C10: `resetStatistics` zeroes exactly the three statistics counters and
persists exactly those three keys, leaving `todayConnectionCount` unchanged;
no message handler ever persists `todayConnectionCount`; the shutdown path
persists it, together with the three counters, exactly when the closed-window
event leaves only the extension's own window. -/
theorem c10_statistics_frame (st : BgState) (sid wid : Int) (m : Msg) (ws : List Int)
    (hne : ¬ ws = [wid]) :
    (handleMessage st sid Msg.resetStatistics).state.stats.clickedLinksCount = 0 ∧
    (handleMessage st sid Msg.resetStatistics).state.stats.keywordSearchCount = 0 ∧
    (handleMessage st sid Msg.resetStatistics).state.stats.visitedSitesCount = 0 ∧
    (handleMessage st sid Msg.resetStatistics).state.stats.todayConnectionCount
      = st.stats.todayConnectionCount ∧
    (handleMessage st sid Msg.resetStatistics).persisted
      = [("visitedSitesCount", 0), ("clickedLinksCount", 0), ("keywordSearchCount", 0)] ∧
    "todayConnectionCount" ∉ ((handleMessage st sid m).persisted.map Prod.fst) ∧
    shutdownPersist [wid] wid st.stats
      = [("clickedLinksCount", st.stats.clickedLinksCount),
         ("keywordSearchCount", st.stats.keywordSearchCount),
         ("visitedSitesCount", st.stats.visitedSitesCount),
         ("todayConnectionCount", st.stats.todayConnectionCount)] ∧
    shutdownPersist ws wid st.stats = [] := by
  refine ⟨rfl, rfl, rfl, rfl, rfl, ?_, ?_, ?_⟩
  · cases m <;> simp [handleMessage]
  · simp [shutdownPersist]
  · match ws with
    | [] => rfl
    | [w] =>
      rw [shutdownPersist]
      exact if_neg fun hww => hne (by rw [hww])
    | w1 :: w2 :: rest => rfl

/-- Witness for C10 at a concrete state and a concrete non-final window
list. -/
theorem c10_statistics_frame_witness :
    (handleMessage { currentTabs := [], stats := ⟨1, 2, 3, 4⟩, searchTerms := [] } 0
        Msg.resetStatistics).state.stats.clickedLinksCount = 0 ∧
    (handleMessage { currentTabs := [], stats := ⟨1, 2, 3, 4⟩, searchTerms := [] } 0
        Msg.resetStatistics).state.stats.keywordSearchCount = 0 ∧
    (handleMessage { currentTabs := [], stats := ⟨1, 2, 3, 4⟩, searchTerms := [] } 0
        Msg.resetStatistics).state.stats.visitedSitesCount = 0 ∧
    (handleMessage { currentTabs := [], stats := ⟨1, 2, 3, 4⟩, searchTerms := [] } 0
        Msg.resetStatistics).state.stats.todayConnectionCount = 4 ∧
    (handleMessage { currentTabs := [], stats := ⟨1, 2, 3, 4⟩, searchTerms := [] } 0
        Msg.resetStatistics).persisted
      = [("visitedSitesCount", 0), ("clickedLinksCount", 0), ("keywordSearchCount", 0)] ∧
    "todayConnectionCount" ∉ ((handleMessage
        { currentTabs := [], stats := ⟨1, 2, 3, 4⟩, searchTerms := [] } 0
        Msg.getStatistics).persisted.map Prod.fst) ∧
    shutdownPersist [3] 3 ⟨1, 2, 3, 4⟩
      = [("clickedLinksCount", 1), ("keywordSearchCount", 2),
         ("visitedSitesCount", 3), ("todayConnectionCount", 4)] ∧
    shutdownPersist [] 3 ⟨1, 2, 3, 4⟩ = [] :=
  c10_statistics_frame { currentTabs := [], stats := ⟨1, 2, 3, 4⟩, searchTerms := [] }
    0 3 Msg.getStatistics [] (by decide)

/-! ## The broken search-term reply (claim C4) -/

/-- C4: on an empty term store the IndexedDB lookup would resolve to the
single-space sentinel, and the Search strategy receiving that sentinel reports
SEARCHFAIL and disconnects; but the handler itself throws (reading the
undeclared `value`) and sends no reply at all, so the claimed reply with the
sentinel never happens — the code contradicts the specified contract. -/
theorem c4_search_term_bug :
    (handleMessage { currentTabs := [], stats := ⟨0, 0, 0, 0⟩, searchTerms := [] } 7
        (Msg.getSearchTerm "example.com".toList)).error = true ∧
    (handleMessage { currentTabs := [], stats := ⟨0, 0, 0, 0⟩, searchTerms := [] } 7
        (Msg.getSearchTerm "example.com".toList)).response = none ∧
    (handleMessage { currentTabs := [], stats := ⟨0, 0, 0, 0⟩, searchTerms := [] } 7
        (Msg.getSearchTerm "example.com".toList)).deferred
      = [Deferred.dbLookup "example.com".toList] ∧
    dbLookupValue [] "example.com".toList = some [' '] ∧
    (∀ ctx : PageCtx, searchRun ctx [' ']
      = Except.ok [Outcome.SEARCHFAIL, Outcome.REMOVE]) := by
  refine ⟨rfl, rfl, rfl, rfl, fun ctx => ?_⟩
  simp [searchRun, searchFormOk]

/-! ## Strategy outcome reporting (claim C9) -/

/-- Counterexample to C9 as stated: on a page with no anchor elements the
Navigate strategy throws a TypeError (`randomVisit` is `undefined`) and
reports no outcome at all. -/
theorem c9_counterexample :
    ¬ reportsExactlyOne (dispatchRun
        { anchorCount := 0
          hasSearchInput := false
          hasTextInput := false
          formActionHasSearch := false
          formRoleHasSearch := false } Algo.NAVIGATE [' ']) := by
  rintro ⟨l, hl, -⟩
  simp [dispatchRun, navigateRun] at hl

/-- C9 amended: Idle always reports exactly one terminal outcome (REMOVE);
Navigate reports exactly one terminal outcome (NAVIGATE) on pages with at
least one anchor element, but throws and reports nothing on a page without
anchors; Search reports exactly one terminal outcome (SEARCH) when a search
form and term are available, and otherwise reports SEARCHFAIL followed by the
disconnect's REMOVE. -/
theorem c9_strategy_outcomes (ctx c0 : PageCtx) (term : List Char)
    (hpos : ¬ ctx.anchorCount = 0) (hzero : c0.anchorCount = 0) :
    reportsExactlyOne (dispatchRun ctx Algo.DEFAULT term) ∧
    reportsExactlyOne (dispatchRun ctx Algo.NAVIGATE term) ∧
    (searchFormOk ctx term = true →
      dispatchRun ctx Algo.SEARCH term = Except.ok [Outcome.SEARCH]) ∧
    (searchFormOk ctx term = false →
      dispatchRun ctx Algo.SEARCH term = Except.ok [Outcome.SEARCHFAIL, Outcome.REMOVE]) ∧
    dispatchRun c0 Algo.NAVIGATE term = Except.error JsError.typeError := by
  refine ⟨⟨[Outcome.REMOVE], rfl, rfl⟩, ?_, ?_, ?_, ?_⟩
  · refine ⟨[Outcome.NAVIGATE], ?_, rfl⟩
    simp [dispatchRun, navigateRun, hpos]
  · intro hok
    simp [dispatchRun, searchRun, hok]
  · intro hbad
    simp [dispatchRun, searchRun, hbad]
  · simp [dispatchRun, navigateRun, hzero]

/-- Witness for the amended C9: a page with one anchor and no search form
versus a page with no anchors. -/
theorem c9_strategy_outcomes_witness :
    reportsExactlyOne (dispatchRun
        { anchorCount := 1
          hasSearchInput := false
          hasTextInput := false
          formActionHasSearch := false
          formRoleHasSearch := false } Algo.DEFAULT [' ']) ∧
    reportsExactlyOne (dispatchRun
        { anchorCount := 1
          hasSearchInput := false
          hasTextInput := false
          formActionHasSearch := false
          formRoleHasSearch := false } Algo.NAVIGATE [' ']) ∧
    dispatchRun
        { anchorCount := 1
          hasSearchInput := false
          hasTextInput := false
          formActionHasSearch := false
          formRoleHasSearch := false } Algo.SEARCH [' ']
      = Except.ok [Outcome.SEARCHFAIL, Outcome.REMOVE] ∧
    dispatchRun
        { anchorCount := 0
          hasSearchInput := false
          hasTextInput := false
          formActionHasSearch := false
          formRoleHasSearch := false } Algo.NAVIGATE [' ']
      = Except.error JsError.typeError :=
  ⟨(c9_strategy_outcomes ⟨1, false, false, false, false⟩ ⟨0, false, false, false, false⟩
      [' '] (by decide) rfl).1,
   (c9_strategy_outcomes ⟨1, false, false, false, false⟩ ⟨0, false, false, false, false⟩
      [' '] (by decide) rfl).2.1,
   (c9_strategy_outcomes ⟨1, false, false, false, false⟩ ⟨0, false, false, false, false⟩
      [' '] (by decide) rfl).2.2.2.1 (by decide),
   (c9_strategy_outcomes ⟨1, false, false, false, false⟩ ⟨0, false, false, false, false⟩
      [' '] (by decide) rfl).2.2.2.2⟩

end FPFool
